import Mathlib

/-!
Verification of the SS12000 Python client (ss12000client.py): a shallow
embedding of its parameter-mapping and request-dispatch core.

Python values that can appear as query-parameter or JSON-body values are
modelled by `Value`; Python's `None` result of `dict.get` is modelled by
`Option Value`, so a keyword-argument dictionary (`**params`) is a function
`String → Option Value`.  Python dictionaries preserve insertion order, so a
built dictionary is modelled as an association list in insertion order.
-/

namespace SS12000

/-- A JSON-like Python value: `null` is Python `None` as data (also the value
a JSON `null` body decodes to). -/
inductive Value where
  | null
  | bool (b : Bool)
  | num (n : Int)
  | str (s : String)
  | arr (elems : List Value)
  | obj (fields : List (String × Value))

/-- The keyword-argument dictionary a `**params` method receives: `params k`
is `params.get(k)`, `none` when the key is absent or bound to `None`. -/
def Params : Type := String → Option Value

/-- Line 103 (and its per-method copies): the dict comprehension
`\x7bk: v for k, v in mapped_params.items() if v is not None\x7d`. -/
def filtered_params (mapped : List (String × Option Value)) : List (String × Value) :=
  mapped.filterMap fun kv => kv.2.map fun v => (kv.1, v)

/-- One outgoing call handed to `_request`: HTTP method, path, query
parameters and optional JSON body (`none` models `json_data=None`). -/
structure Request where
  method : String
  path : String
  query : List (String × Value)
  body : Option (List (String × Value))

def queryKeys (r : Request) : List String := r.query.map Prod.fst

def bodyKeys (r : Request) : List String := (r.body.getD []).map Prod.fst

/-- Python truthiness of a `list = None` default argument: `None` and the
empty list are falsy, a non-empty list is truthy. -/
def truthyList : Option (List Value) → Bool
  | none => false
  | some l => !l.isEmpty

/-- `if arg: body[key] = arg` for a list-typed keyword argument `arg`. -/
def listEntry (key : String) (arg : Option (List Value)) : List (String × Value) :=
  if truthyList arg then [(key, Value.arr (arg.getD []))] else []

/-- Lines such as 124: `\x7b'expandReferenceNames': expand_reference_names\x7d
if expand_reference_names else \x7b\x7d`. -/
def ernQuery (ern : Bool) : List (String × Value) :=
  if ern then [("expandReferenceNames", Value.bool ern)] else []

/-- Lines such as 185-189: `params = \x7b\x7d; if expand: ...; if
expand_reference_names: ...`. -/
def expandQuery (expand : Option (List Value)) (ern : Bool) : List (String × Value) :=
  listEntry "expand" expand ++ ernQuery ern

/-- The shared body of every `get_<resource>s(**params)` list method: build
`mapped_params` by reading each logical keyword through `params.get`, drop
the `None` entries, and issue a GET. `table` lists the method's
`wireName: params.get(logicalName)` rows in source order. -/
def listGET (path : String) (table : List (String × String)) (params : Params) : Request :=
  { method := "GET", path := path
    query := filtered_params (table.map fun kv => (kv.1, params kv.2))
    body := none }

/-! The filter tables of the 21 list methods, one `(wireName, logicalName)`
row per line of the source's `mapped_params` dictionaries. -/

def organisationsTable : List (String × String) :=
  [("parent", "parent"),
   ("schoolUnitCode", "school_unit_code"),
   ("organisationCode", "organisation_code"),
   ("municipalityCode", "municipality_code"),
   ("type", "type"),
   ("schoolTypes", "school_types"),
   ("startDate.onOrBefore", "start_date_on_or_before"),
   ("startDate.onOrAfter", "start_date_on_or_after"),
   ("endDate.onOrBefore", "end_date_on_or_before"),
   ("endDate.onOrAfter", "end_date_on_or_after"),
   ("meta.created.before", "meta_created_before"),
   ("meta.created.after", "meta_created_after"),
   ("meta.modified.before", "meta_modified_before"),
   ("meta.modified.after", "meta_modified_after"),
   ("expandReferenceNames", "expand_reference_names"),
   ("sortkey", "sortkey"),
   ("limit", "limit"),
   ("pageToken", "page_token")]

def personsTable : List (String × String) :=
  [("nameContains", "name_contains"),
   ("civicNo", "civic_no"),
   ("eduPersonPrincipalName", "edu_person_principal_name"),
   ("identifier.value", "identifier_value"),
   ("identifier.context", "identifier_context"),
   ("relationship.entity.type", "relationship_entity_type"),
   ("relationship.organisation", "relationship_organisation"),
   ("relationship.startDate.onOrBefore", "relationship_start_date_on_or_before"),
   ("relationship.startDate.onOrAfter", "relationship_start_date_on_or_after"),
   ("relationship.endDate.onOrBefore", "relationship_end_date_on_or_before"),
   ("relationship.endDate.onOrAfter", "relationship_end_date_on_or_after"),
   ("meta.created.before", "meta_created_before"),
   ("meta.created.after", "meta_created_after"),
   ("meta.modified.before", "meta_modified_before"),
   ("meta.modified.after", "meta_modified_after"),
   ("expand", "expand"),
   ("expandReferenceNames", "expand_reference_names"),
   ("sortkey", "sortkey"),
   ("limit", "limit"),
   ("pageToken", "page_token")]

def placementsTable : List (String × String) :=
  [("child", "child"),
   ("group", "group"),
   ("owner", "owner"),
   ("placedAt", "placed_at"),
   ("schoolType", "school_type"),
   ("startDate.onOrBefore", "start_date_on_or_before"),
   ("startDate.onOrAfter", "start_date_on_or_after"),
   ("endDate.onOrBefore", "end_date_on_or_before"),
   ("endDate.onOrAfter", "end_date_on_or_after"),
   ("meta.created.before", "meta_created_before"),
   ("meta.created.after", "meta_created_after"),
   ("meta.modified.before", "meta_modified_before"),
   ("meta.modified.after", "meta_modified_after"),
   ("expand", "expand"),
   ("expandReferenceNames", "expand_reference_names"),
   ("sortkey", "sortkey"),
   ("limit", "limit"),
   ("pageToken", "page_token")]

def dutiesTable : List (String × String) :=
  [("person", "person"),
   ("dutyAt", "duty_at"),
   ("dutyRole", "duty_role"),
   ("signature", "signature"),
   ("startDate.onOrBefore", "start_date_on_or_before"),
   ("startDate.onOrAfter", "start_date_on_or_after"),
   ("endDate.onOrBefore", "end_date_on_or_before"),
   ("endDate.onOrAfter", "end_date_on_or_after"),
   ("meta.created.before", "meta_created_before"),
   ("meta.created.after", "meta_created_after"),
   ("meta.modified.before", "meta_modified_before"),
   ("meta.modified.after", "meta_modified_after"),
   ("expand", "expand"),
   ("expandReferenceNames", "expand_reference_names"),
   ("sortkey", "sortkey"),
   ("limit", "limit"),
   ("pageToken", "page_token")]

def groupsTable : List (String × String) :=
  [("groupType", "group_type"),
   ("schoolType", "school_type"),
   ("organisation", "organisation"),
   ("startDate.onOrBefore", "start_date_on_or_before"),
   ("startDate.onOrAfter", "start_date_on_or_after"),
   ("endDate.onOrBefore", "end_date_on_or_before"),
   ("endDate.onOrAfter", "end_date_on_or_after"),
   ("meta.created.before", "meta_created_before"),
   ("meta.created.after", "meta_created_after"),
   ("meta.modified.before", "meta_modified_before"),
   ("meta.modified.after", "meta_modified_after"),
   ("expand", "expand"),
   ("expandReferenceNames", "expand_reference_names"),
   ("sortkey", "sortkey"),
   ("limit", "limit"),
   ("pageToken", "page_token")]

def programmesTable : List (String × String) :=
  [("nameContains", "name_contains"),
   ("type", "type"),
   ("parentProgramme", "parent_programme"),
   ("schoolType", "school_type"),
   ("code", "code"),
   ("meta.created.before", "meta_created_before"),
   ("meta.created.after", "meta_created_after"),
   ("meta.modified.before", "meta_modified_before"),
   ("meta.modified.after", "meta_modified_after"),
   ("expand", "expand"),
   ("expandReferenceNames", "expand_reference_names"),
   ("sortkey", "sortkey"),
   ("limit", "limit"),
   ("pageToken", "page_token")]

def studyPlansTable : List (String × String) :=
  [("student", "student"),
   ("startDate.onOrBefore", "start_date_on_or_before"),
   ("startDate.onOrAfter", "start_date_on_or_after"),
   ("endDate.onOrBefore", "end_date_on_or_before"),
   ("endDate.onOrAfter", "end_date_on_or_after"),
   ("meta.created.before", "meta_created_before"),
   ("meta.created.after", "meta_created_after"),
   ("meta.modified.before", "meta_modified_before"),
   ("meta.modified.after", "meta_modified_after"),
   ("expand", "expand"),
   ("expandReferenceNames", "expand_reference_names"),
   ("sortkey", "sortkey"),
   ("limit", "limit"),
   ("pageToken", "page_token")]

def syllabusesTable : List (String × String) :=
  [("schoolType", "school_type"),
   ("subjectCode", "subject_code"),
   ("subjectNameContains", "subject_name_contains"),
   ("subjectDesignation", "subject_designation"),
   ("courseCode", "course_code"),
   ("courseNameContains", "course_name_contains"),
   ("startSchoolYear.onOrBefore", "start_school_year_on_or_before"),
   ("startSchoolYear.onOrAfter", "start_school_year_on_or_after"),
   ("endSchoolYear.onOrBefore", "end_school_year_on_or_before"),
   ("endSchoolYear.onOrAfter", "end_school_year_on_or_after"),
   ("points.onOrBefore", "points_on_or_before"),
   ("points.onOrAfter", "points_on_or_after"),
   ("curriculum", "curriculum"),
   ("languageCode", "language_code"),
   ("official", "official"),
   ("meta.created.before", "meta_created_before"),
   ("meta.created.after", "meta_created_after"),
   ("meta.modified.before", "meta_modified_before"),
   ("meta.modified.after", "meta_modified_after"),
   ("expandReferenceNames", "expand_reference_names"),
   ("sortkey", "sortkey"),
   ("limit", "limit"),
   ("pageToken", "page_token")]

def schoolUnitOfferingsTable : List (String × String) :=
  [("offeredAt", "offered_at"),
   ("offeredSyllabuses", "offered_syllabuses"),
   ("offeredProgrammes", "offered_programmes"),
   ("startDate.onOrBefore", "start_date_on_or_before"),
   ("startDate.onOrAfter", "start_date_on_or_after"),
   ("endDate.onOrBefore", "end_date_on_or_before"),
   ("endDate.onOrAfter", "end_date_on_or_after"),
   ("meta.created.before", "meta_created_before"),
   ("meta.created.after", "meta_created_after"),
   ("meta.modified.before", "meta_modified_before"),
   ("meta.modified.after", "meta_modified_after"),
   ("expand", "expand"),
   ("expandReferenceNames", "expand_reference_names"),
   ("sortkey", "sortkey"),
   ("limit", "limit"),
   ("pageToken", "page_token")]

def activitiesTable : List (String × String) :=
  [("organisation", "organisation"),
   ("syllabus", "syllabus"),
   ("activityType", "activity_type"),
   ("calendarEventsRequired", "calendar_events_required"),
   ("startDate.onOrBefore", "start_date_on_or_before"),
   ("startDate.onOrAfter", "start_date_on_or_after"),
   ("endDate.onOrBefore", "end_date_on_or_before"),
   ("endDate.onOrAfter", "end_date_on_or_after"),
   ("meta.created.before", "meta_created_before"),
   ("meta.created.after", "meta_created_after"),
   ("meta.modified.before", "meta_modified_before"),
   ("meta.modified.after", "meta_modified_after"),
   ("expand", "expand"),
   ("expandReferenceNames", "expand_reference_names"),
   ("sortkey", "sortkey"),
   ("limit", "limit"),
   ("pageToken", "page_token")]

def calendarEventsTable : List (String × String) :=
  [("activity", "activity"),
   ("startTime.onOrBefore", "start_time_on_or_before"),
   ("startTime.onOrAfter", "start_time_on_or_after"),
   ("endTime.onOrBefore", "end_time_on_or_before"),
   ("endTime.onOrAfter", "end_time_on_or_after"),
   ("cancelled", "cancelled"),
   ("room", "room"),
   ("resource", "resource"),
   ("meta.created.before", "meta_created_before"),
   ("meta.created.after", "meta_created_after"),
   ("meta.modified.before", "meta_modified_before"),
   ("meta.modified.after", "meta_modified_after"),
   ("expand", "expand"),
   ("expandReferenceNames", "expand_reference_names"),
   ("sortkey", "sortkey"),
   ("limit", "limit"),
   ("pageToken", "page_token")]

def attendancesTable : List (String × String) :=
  [("calendarEvent", "calendar_event"),
   ("student", "student"),
   ("reporter", "reporter"),
   ("isReported", "is_reported"),
   ("reportedTimestamp.onOrBefore", "reported_timestamp_on_or_before"),
   ("reportedTimestamp.onOrAfter", "reported_timestamp_on_or_after"),
   ("meta.created.before", "meta_created_before"),
   ("meta.created.after", "meta_created_after"),
   ("meta.modified.before", "meta_modified_before"),
   ("meta.modified.after", "meta_modified_after"),
   ("expand", "expand"),
   ("expandReferenceNames", "expand_reference_names"),
   ("sortkey", "sortkey"),
   ("limit", "limit"),
   ("pageToken", "page_token")]

def attendanceEventsTable : List (String × String) :=
  [("person", "person"),
   ("registeredBy", "registered_by"),
   ("group", "group"),
   ("room", "room"),
   ("time.onOrBefore", "time_on_or_before"),
   ("time.onOrAfter", "time_on_or_after"),
   ("eventType", "event_type"),
   ("meta.created.before", "meta_created_before"),
   ("meta.created.after", "meta_created_after"),
   ("meta.modified.before", "meta_modified_before"),
   ("meta.modified.after", "meta_modified_after"),
   ("expand", "expand"),
   ("expandReferenceNames", "expand_reference_names"),
   ("sortkey", "sortkey"),
   ("limit", "limit"),
   ("pageToken", "page_token")]

def attendanceSchedulesTable : List (String × String) :=
  [("placement", "placement"),
   ("numberOfWeeks.onOrBefore", "number_of_weeks_on_or_before"),
   ("numberOfWeeks.onOrAfter", "number_of_weeks_on_or_after"),
   ("startDate.onOrBefore", "start_date_on_or_before"),
   ("startDate.onOrAfter", "start_date_on_or_after"),
   ("endDate.onOrBefore", "end_date_on_or_before"),
   ("endDate.onOrAfter", "end_date_on_or_after"),
   ("temporary", "temporary"),
   ("state", "state"),
   ("meta.created.before", "meta_created_before"),
   ("meta.created.after", "meta_created_after"),
   ("meta.modified.before", "meta_modified_before"),
   ("meta.modified.after", "meta_modified_after"),
   ("expand", "expand"),
   ("expandReferenceNames", "expand_reference_names"),
   ("sortkey", "sortkey"),
   ("limit", "limit"),
   ("pageToken", "page_token")]

def gradesTable : List (String × String) :=
  [("student", "student"),
   ("schoolUnit", "school_unit"),
   ("registeredBy", "registered_by"),
   ("gradingTeacher", "grading_teacher"),
   ("group", "group"),
   ("registeredDate.onOrBefore", "registered_date_on_or_before"),
   ("registeredDate.onOrAfter", "registered_date_on_or_after"),
   ("gradeValue", "grade_value"),
   ("finalGrade", "final_grade"),
   ("trial", "trial"),
   ("adaptedStudyPlan", "adapted_study_plan"),
   ("correctionType", "correction_type"),
   ("converted", "converted"),
   ("semester", "semester"),
   ("year.onOrBefore", "year_on_or_before"),
   ("year.onOrAfter", "year_on_or_after"),
   ("syllabus", "syllabus"),
   ("meta.created.before", "meta_created_before"),
   ("meta.created.after", "meta_created_after"),
   ("meta.modified.before", "meta_modified_before"),
   ("meta.modified.after", "meta_modified_after"),
   ("expand", "expand"),
   ("expandReferenceNames", "expand_reference_names"),
   ("sortkey", "sortkey"),
   ("limit", "limit"),
   ("pageToken", "page_token")]

def aggregatedAttendancesTable : List (String × String) :=
  [("activity", "activity"),
   ("student", "student"),
   ("startDate.onOrBefore", "start_date_on_or_before"),
   ("startDate.onOrAfter", "start_date_on_or_after"),
   ("endDate.onOrBefore", "end_date_on_or_before"),
   ("endDate.onOrAfter", "end_date_on_or_after"),
   ("meta.created.before", "meta_created_before"),
   ("meta.created.after", "meta_created_after"),
   ("meta.modified.before", "meta_modified_before"),
   ("meta.modified.after", "meta_modified_after"),
   ("expand", "expand"),
   ("expandReferenceNames", "expand_reference_names"),
   ("sortkey", "sortkey"),
   ("limit", "limit"),
   ("pageToken", "page_token")]

def resourcesTable : List (String × String) :=
  [("owner", "owner"),
   ("nameContains", "name_contains"),
   ("meta.created.before", "meta_created_before"),
   ("meta.created.after", "meta_created_after"),
   ("meta.modified.before", "meta_modified_before"),
   ("meta.modified.after", "meta_modified_after"),
   ("expandReferenceNames", "expand_reference_names"),
   ("sortkey", "sortkey"),
   ("limit", "limit"),
   ("pageToken", "page_token")]

def roomsTable : List (String × String) :=
  [("owner", "owner"),
   ("nameContains", "name_contains"),
   ("meta.created.before", "meta_created_before"),
   ("meta.created.after", "meta_created_after"),
   ("meta.modified.before", "meta_modified_before"),
   ("meta.modified.after", "meta_modified_after"),
   ("expandReferenceNames", "expand_reference_names"),
   ("sortkey", "sortkey"),
   ("limit", "limit"),
   ("pageToken", "page_token")]

def subscriptionsTable : List (String × String) :=
  [("limit", "limit"),
   ("pageToken", "page_token")]

def logTable : List (String × String) :=
  [("source", "source"),
   ("target", "target"),
   ("eventType", "event_type"),
   ("timestamp.onOrBefore", "timestamp_on_or_before"),
   ("timestamp.onOrAfter", "timestamp_on_or_after"),
   ("meta.created.before", "meta_created_before"),
   ("meta.created.after", "meta_created_after"),
   ("meta.modified.before", "meta_modified_before"),
   ("meta.modified.after", "meta_modified_after"),
   ("sortkey", "sortkey"),
   ("limit", "limit"),
   ("pageToken", "page_token")]

def statisticsTable : List (String × String) :=
  [("source", "source"),
   ("target", "target"),
   ("statisticType", "statistic_type"),
   ("timestamp.onOrBefore", "timestamp_on_or_before"),
   ("timestamp.onOrAfter", "timestamp_on_or_after"),
   ("meta.created.before", "meta_created_before"),
   ("meta.created.after", "meta_created_after"),
   ("meta.modified.before", "meta_modified_before"),
   ("meta.modified.after", "meta_modified_after"),
   ("sortkey", "sortkey"),
   ("limit", "limit"),
   ("pageToken", "page_token")]

/-! The 21 list methods. -/

def get_organisations (params : Params) : Request := listGET "/organisations" organisationsTable params
def get_persons (params : Params) : Request := listGET "/persons" personsTable params
def get_placements (params : Params) : Request := listGET "/placements" placementsTable params
def get_duties (params : Params) : Request := listGET "/duties" dutiesTable params
def get_groups (params : Params) : Request := listGET "/groups" groupsTable params
def get_programmes (params : Params) : Request := listGET "/programmes" programmesTable params
def get_study_plans (params : Params) : Request := listGET "/studyplans" studyPlansTable params
def get_syllabuses (params : Params) : Request := listGET "/syllabuses" syllabusesTable params
def get_school_unit_offerings (params : Params) : Request := listGET "/schoolUnitOfferings" schoolUnitOfferingsTable params
def get_activities (params : Params) : Request := listGET "/activities" activitiesTable params
def get_calendar_events (params : Params) : Request := listGET "/calendarEvents" calendarEventsTable params
def get_attendances (params : Params) : Request := listGET "/attendances" attendancesTable params
def get_attendance_events (params : Params) : Request := listGET "/attendanceEvents" attendanceEventsTable params
def get_attendance_schedules (params : Params) : Request := listGET "/attendanceSchedules" attendanceSchedulesTable params
def get_grades (params : Params) : Request := listGET "/grades" gradesTable params
def get_aggregated_attendances (params : Params) : Request := listGET "/aggregatedAttendance" aggregatedAttendancesTable params
def get_resources (params : Params) : Request := listGET "/resources" resourcesTable params
def get_rooms (params : Params) : Request := listGET "/rooms" roomsTable params
def get_subscriptions (params : Params) : Request := listGET "/subscriptions" subscriptionsTable params
def get_log (params : Params) : Request := listGET "/log" logTable params
def get_statistics (params : Params) : Request := listGET "/statistics" statisticsTable params

/-- The list-endpoint methods, for quantifying over all of them. -/
inductive ListEndpoint where
  | organisations | persons | placements | duties | groups | programmes
  | studyPlans | syllabuses | schoolUnitOfferings | activities | calendarEvents
  | attendances | attendanceEvents | attendanceSchedules | grades
  | aggregatedAttendances | resources | rooms | subscriptions | log | statistics
deriving DecidableEq

/-- The `mapped_params` filter table of each list method. -/
def fieldTable : ListEndpoint → List (String × String)
  | .organisations => organisationsTable
  | .persons => personsTable
  | .placements => placementsTable
  | .duties => dutiesTable
  | .groups => groupsTable
  | .programmes => programmesTable
  | .studyPlans => studyPlansTable
  | .syllabuses => syllabusesTable
  | .schoolUnitOfferings => schoolUnitOfferingsTable
  | .activities => activitiesTable
  | .calendarEvents => calendarEventsTable
  | .attendances => attendancesTable
  | .attendanceEvents => attendanceEventsTable
  | .attendanceSchedules => attendanceSchedulesTable
  | .grades => gradesTable
  | .aggregatedAttendances => aggregatedAttendancesTable
  | .resources => resourcesTable
  | .rooms => roomsTable
  | .subscriptions => subscriptionsTable
  | .log => logTable
  | .statistics => statisticsTable

/-- Dispatch to the list method of each endpoint. -/
def listCall : ListEndpoint → Params → Request
  | .organisations => get_organisations
  | .persons => get_persons
  | .placements => get_placements
  | .duties => get_duties
  | .groups => get_groups
  | .programmes => get_programmes
  | .studyPlans => get_study_plans
  | .syllabuses => get_syllabuses
  | .schoolUnitOfferings => get_school_unit_offerings
  | .activities => get_activities
  | .calendarEvents => get_calendar_events
  | .attendances => get_attendances
  | .attendanceEvents => get_attendance_events
  | .attendanceSchedules => get_attendance_schedules
  | .grades => get_grades
  | .aggregatedAttendances => get_aggregated_attendances
  | .resources => get_resources
  | .rooms => get_rooms
  | .subscriptions => get_subscriptions
  | .log => get_log
  | .statistics => get_statistics

/-! The lookup methods (POST `/<resource>/lookup`).  Fourteen of them share
one body shape (`body = \x7b'ids': ids\x7d if ids else \x7b\x7d`, query from
`expand` and `expand_reference_names`); `lookup_organisations` and
`lookup_persons` add extra identifier lists, and three methods take no
`expand` argument. -/

def lookupPOST (path : String) (ids expand : Option (List Value)) (ern : Bool) : Request :=
  { method := "POST", path := path
    query := expandQuery expand ern
    body := some (listEntry "ids" ids) }

def lookupPOSTNoExpand (path : String) (ids : Option (List Value)) (ern : Bool) : Request :=
  { method := "POST", path := path
    query := ernQuery ern
    body := some (listEntry "ids" ids) }

def lookup_organisations (ids school_unit_codes organisation_codes : Option (List Value))
    (expand_reference_names : Bool) : Request :=
  { method := "POST", path := "/organisations/lookup"
    query := ernQuery expand_reference_names
    body := some (listEntry "ids" ids ++ listEntry "schoolUnitCodes" school_unit_codes ++
                  listEntry "organisationCodes" organisation_codes) }

def lookup_persons (ids civic_nos expand : Option (List Value))
    (expand_reference_names : Bool) : Request :=
  { method := "POST", path := "/persons/lookup"
    query := expandQuery expand expand_reference_names
    body := some (listEntry "ids" ids ++ listEntry "civicNos" civic_nos) }

def lookup_placements (ids expand : Option (List Value)) (ern : Bool) : Request :=
  lookupPOST "/placements/lookup" ids expand ern
def lookup_duties (ids expand : Option (List Value)) (ern : Bool) : Request :=
  lookupPOST "/duties/lookup" ids expand ern
def lookup_groups (ids expand : Option (List Value)) (ern : Bool) : Request :=
  lookupPOST "/groups/lookup" ids expand ern
def lookup_programmes (ids expand : Option (List Value)) (ern : Bool) : Request :=
  lookupPOST "/programmes/lookup" ids expand ern
def lookup_study_plans (ids expand : Option (List Value)) (ern : Bool) : Request :=
  lookupPOST "/studyplans/lookup" ids expand ern
def lookup_syllabuses (ids : Option (List Value)) (ern : Bool) : Request :=
  lookupPOSTNoExpand "/syllabuses/lookup" ids ern
def lookup_school_unit_offerings (ids expand : Option (List Value)) (ern : Bool) : Request :=
  lookupPOST "/schoolUnitOfferings/lookup" ids expand ern
def lookup_activities (ids expand : Option (List Value)) (ern : Bool) : Request :=
  lookupPOST "/activities/lookup" ids expand ern
def lookup_calendar_events (ids expand : Option (List Value)) (ern : Bool) : Request :=
  lookupPOST "/calendarEvents/lookup" ids expand ern
def lookup_attendances (ids expand : Option (List Value)) (ern : Bool) : Request :=
  lookupPOST "/attendances/lookup" ids expand ern
def lookup_attendance_events (ids expand : Option (List Value)) (ern : Bool) : Request :=
  lookupPOST "/attendanceEvents/lookup" ids expand ern
def lookup_attendance_schedules (ids expand : Option (List Value)) (ern : Bool) : Request :=
  lookupPOST "/attendanceSchedules/lookup" ids expand ern
def lookup_grades (ids expand : Option (List Value)) (ern : Bool) : Request :=
  lookupPOST "/grades/lookup" ids expand ern
def lookup_aggregated_attendances (ids expand : Option (List Value)) (ern : Bool) : Request :=
  lookupPOST "/aggregatedAttendance/lookup" ids expand ern
def lookup_resources (ids : Option (List Value)) (ern : Bool) : Request :=
  lookupPOSTNoExpand "/resources/lookup" ids ern
def lookup_rooms (ids : Option (List Value)) (ern : Bool) : Request :=
  lookupPOSTNoExpand "/rooms/lookup" ids ern

/-! The get-by-id methods (GET `/<resource>/<id>`): most take `expand` and
`expand_reference_names`; four take only `expand_reference_names`. -/

def getByIdExpand (stem id : String) (expand : Option (List Value)) (ern : Bool) : Request :=
  { method := "GET", path := stem ++ id, query := expandQuery expand ern, body := none }

def getByIdPlain (stem id : String) (ern : Bool) : Request :=
  { method := "GET", path := stem ++ id, query := ernQuery ern, body := none }

def get_organisation_by_id (org_id : String) (ern : Bool) : Request :=
  getByIdPlain "/organisations/" org_id ern
def get_person_by_id (person_id : String) (expand : Option (List Value)) (ern : Bool) : Request :=
  getByIdExpand "/persons/" person_id expand ern
def get_placement_by_id (placement_id : String) (expand : Option (List Value)) (ern : Bool) : Request :=
  getByIdExpand "/placements/" placement_id expand ern
def get_duty_by_id (duty_id : String) (expand : Option (List Value)) (ern : Bool) : Request :=
  getByIdExpand "/duties/" duty_id expand ern
def get_group_by_id (group_id : String) (expand : Option (List Value)) (ern : Bool) : Request :=
  getByIdExpand "/groups/" group_id expand ern
def get_programme_by_id (programme_id : String) (expand : Option (List Value)) (ern : Bool) : Request :=
  getByIdExpand "/programmes/" programme_id expand ern
def get_study_plan_by_id (study_plan_id : String) (expand : Option (List Value)) (ern : Bool) : Request :=
  getByIdExpand "/studyplans/" study_plan_id expand ern
def get_syllabus_by_id (syllabus_id : String) (ern : Bool) : Request :=
  getByIdPlain "/syllabuses/" syllabus_id ern
def get_school_unit_offering_by_id (offering_id : String) (expand : Option (List Value)) (ern : Bool) : Request :=
  getByIdExpand "/schoolUnitOfferings/" offering_id expand ern
def get_activity_by_id (activity_id : String) (expand : Option (List Value)) (ern : Bool) : Request :=
  getByIdExpand "/activities/" activity_id expand ern
def get_calendar_event_by_id (event_id : String) (expand : Option (List Value)) (ern : Bool) : Request :=
  getByIdExpand "/calendarEvents/" event_id expand ern
def get_attendance_by_id (attendance_id : String) (expand : Option (List Value)) (ern : Bool) : Request :=
  getByIdExpand "/attendances/" attendance_id expand ern
def get_attendance_event_by_id (event_id : String) (expand : Option (List Value)) (ern : Bool) : Request :=
  getByIdExpand "/attendanceEvents/" event_id expand ern
def get_attendance_schedule_by_id (schedule_id : String) (expand : Option (List Value)) (ern : Bool) : Request :=
  getByIdExpand "/attendanceSchedules/" schedule_id expand ern
def get_grade_by_id (grade_id : String) (expand : Option (List Value)) (ern : Bool) : Request :=
  getByIdExpand "/grades/" grade_id expand ern
def get_aggregated_attendance_by_id (attendance_id : String) (expand : Option (List Value)) (ern : Bool) : Request :=
  getByIdExpand "/aggregatedAttendance/" attendance_id expand ern
def get_resource_by_id (resource_id : String) (ern : Bool) : Request :=
  getByIdPlain "/resources/" resource_id ern
def get_room_by_id (room_id : String) (ern : Bool) : Request :=
  getByIdPlain "/rooms/" room_id ern

/-! Subscriptions and deletes. -/

def create_subscription (name target : String) (resource_types : List String) : Request :=
  { method := "POST", path := "/subscriptions", query := []
    body := some [("name", Value.str name), ("target", Value.str target),
                  ("resourceTypes", Value.arr (resource_types.map fun rt =>
                    Value.obj [("resource", Value.str rt)]))] }

def delete_attendance (attendance_id : String) : Request :=
  { method := "DELETE", path := "/attendances/" ++ attendance_id, query := [], body := none }

def delete_subscription (subscription_id : String) : Request :=
  { method := "DELETE", path := "/subscriptions/" ++ subscription_id, query := [], body := none }

/-! The response-handling half of `_request` (lines 60-72): `raise_for_status`
raises for 4xx/5xx, and the `except` block then inspects the attached
response, decoding its body as JSON when possible and falling back to the raw
text (the fallback is itself guarded, so a non-JSON body cannot raise a
second error); a 204 returns Python `None`; any other 2xx returns
`response.json()`, where a JSON `null` body also decodes to Python `None`. -/

/-- An HTTP response as the `requests` library presents it: status code, raw
text, and the result of `response.json()` (`none` when the body is not
parseable JSON; a JSON `null` body parses to `some Value.null`). -/
structure HttpResponse where
  status : Nat
  text : String
  jsonBody : Option Value

/-- What the error path exposes about a failed response: the decoded JSON
error payload when the body parses, the raw text otherwise. -/
inductive ErrorPayload where
  | json (v : Value)
  | text (s : String)

/-- How a dispatched request fails: `api` models the re-raised HTTPError from
`raise_for_status` (status and payload stay inspectable through
`e.response`), `decode` a JSON decode failure on a 2xx body. -/
inductive RequestError where
  | api (status : Nat) (payload : ErrorPayload)
  | decode (text : String)

def errorPayload (r : HttpResponse) : ErrorPayload :=
  match r.jsonBody with
  | some v => ErrorPayload.json v
  | none => ErrorPayload.text r.text

def handleResponse (r : HttpResponse) : Except RequestError Value :=
  if 400 ≤ r.status ∧ r.status < 600 then
    Except.error (RequestError.api r.status (errorPayload r))
  else if r.status = 204 then
    Except.ok Value.null
  else
    match r.jsonBody with
    | some v => Except.ok v
    | none => Except.error (RequestError.decode r.text)

/-! URL construction (line 50): `url = urljoin(self.base_url, path)`.
`urljoin` is modelled from urllib.parse's documented RFC 3986 semantics,
restricted to the only reference form this client ever passes: every `path`
argument in the source starts with `/`, and for such an absolute-path
reference the result keeps only the scheme and authority of the base URL and
replaces the base's entire path. -/

def takeUntilSlash : List Char → List Char
  | [] => []
  | c :: cs => if c = '/' then [] else c :: takeUntilSlash cs

/-- Split off everything up to and including the first `://`: returns
`(chars up to and including "://", the rest)`. -/
def schemeSplit : List Char → Option (List Char × List Char)
  | [] => none
  | ':' :: '/' :: '/' :: rest => some ([':', '/', '/'], rest)
  | c :: cs => (schemeSplit cs).map fun p => (c :: p.1, p.2)

def urljoin (base rel : String) : String :=
  match rel.data with
  | '/' :: _ =>
    match schemeSplit base.data with
    | some (scheme, rest) => String.mk (scheme ++ takeUntilSlash rest ++ rel.data)
    | none => rel
  | _ => base

/-- The URL `_request` dispatches a built request to. -/
def dispatchUrl (base_url : String) (r : Request) : String := urljoin base_url r.path

/-! ## Helper lemmas about the query builders -/

/-- A key survives the `is not None` filter exactly when some row binds it to
a present value. -/
theorem mem_filteredKeys {mapped : List (String × Option Value)} {k : String} :
    k ∈ (filtered_params mapped).map Prod.fst ↔ ∃ v, (k, some v) ∈ mapped := by
  induction mapped with
  | nil => simp [filtered_params]
  | cons hd tl ih =>
    obtain ⟨k0, v0⟩ := hd
    cases v0 with
    | none =>
      rw [show filtered_params ((k0, none) :: tl) = filtered_params tl from rfl, ih]
      constructor
      · rintro ⟨v, hv⟩
        exact ⟨v, List.mem_cons_of_mem _ hv⟩
      · rintro ⟨v, hv⟩
        rcases List.mem_cons.1 hv with heq | hmem
        · simp at heq
        · exact ⟨v, hmem⟩
    | some w =>
      rw [show filtered_params ((k0, some w) :: tl) = (k0, w) :: filtered_params tl from rfl]
      rw [List.map_cons, List.mem_cons, ih]
      constructor
      · rintro (rfl | ⟨v, hv⟩)
        · exact ⟨w, List.mem_cons_self _ _⟩
        · exact ⟨v, List.mem_cons_of_mem _ hv⟩
      · rintro ⟨v, hv⟩
        rcases List.mem_cons.1 hv with heq | hmem
        · exact Or.inl (congrArg Prod.fst heq)
        · exact Or.inr ⟨v, hmem⟩

/-- In a list whose first components are distinct, two members with the same
first component are the same row. -/
theorem eq_of_fst_eq_of_nodupKeys {α β : Type} {l : List (α × β)}
    (h : (l.map Prod.fst).Nodup) {x y : α × β}
    (hx : x ∈ l) (hy : y ∈ l) (hfst : x.1 = y.1) : x = y := by
  induction l with
  | nil => cases hx
  | cons hd tl ih =>
    rw [List.map_cons, List.nodup_cons] at h
    rcases List.mem_cons.1 hx with rfl | hx' <;> rcases List.mem_cons.1 hy with rfl | hy'
    · rfl
    · have hmem : y.1 ∈ tl.map Prod.fst := List.mem_map_of_mem _ hy'
      rw [← hfst] at hmem
      exact absurd hmem h.1
    · have hmem : x.1 ∈ tl.map Prod.fst := List.mem_map_of_mem _ hx'
      rw [hfst] at hmem
      exact absurd hmem h.1
    · exact ih h.2 hx' hy'

/-- A list method never emits the wire name of a field its caller left unset. -/
theorem listGET_absent {path : String} {table : List (String × String)} {params : Params}
    {wire logical : String} (hnd : (table.map Prod.fst).Nodup)
    (hmem : (wire, logical) ∈ table) (habs : params logical = none) :
    wire ∉ queryKeys (listGET path table params) := by
  intro hk
  have hk' : wire ∈ (filtered_params (table.map fun kv => (kv.1, params kv.2))).map Prod.fst := hk
  obtain ⟨v, hv⟩ := mem_filteredKeys.1 hk'
  obtain ⟨kv, hkv, heq⟩ := List.mem_map.1 hv
  have h1 : kv.1 = wire := congrArg Prod.fst heq
  have h2 : params kv.2 = some v := congrArg Prod.snd heq
  have h3 : kv = (wire, logical) := eq_of_fst_eq_of_nodupKeys hnd hkv hmem h1
  rw [h3] at h2
  simp [habs] at h2

/-- Every key a list method emits is a wire name from its own table. -/
theorem listGET_keys_sub {path : String} {table : List (String × String)} {params : Params}
    {k : String} (hk : k ∈ queryKeys (listGET path table params)) :
    k ∈ table.map Prod.fst := by
  have hk' : k ∈ (filtered_params (table.map fun kv => (kv.1, params kv.2))).map Prod.fst := hk
  obtain ⟨v, hv⟩ := mem_filteredKeys.1 hk'
  obtain ⟨kv, hkv, heq⟩ := List.mem_map.1 hv
  exact List.mem_map.2 ⟨kv, hkv, congrArg Prod.fst heq⟩

theorem mem_keys_listEntry {k key : String} {arg : Option (List Value)}
    (h : k ∈ (listEntry key arg).map Prod.fst) : k = key := by
  unfold listEntry at h
  split at h
  · simpa using h
  · simp at h

theorem mem_keys_ernQuery {k : String} {ern : Bool}
    (h : k ∈ (ernQuery ern).map Prod.fst) : k = "expandReferenceNames" := by
  unfold ernQuery at h
  split at h
  · simpa using h
  · simp at h

theorem mem_keys_expandQuery {k : String} {ex : Option (List Value)} {ern : Bool}
    (h : k ∈ (expandQuery ex ern).map Prod.fst) :
    k = "expand" ∨ k = "expandReferenceNames" := by
  unfold expandQuery at h
  rw [List.map_append, List.mem_append] at h
  rcases h with h | h
  · exact Or.inl (mem_keys_listEntry h)
  · exact Or.inr (mem_keys_ernQuery h)

theorem ern_key_ernQuery (ern : Bool) :
    "expandReferenceNames" ∈ (ernQuery ern).map Prod.fst ↔ ern = true := by
  cases ern <;> simp [ernQuery]

theorem ern_key_expandQuery (ex : Option (List Value)) (ern : Bool) :
    "expandReferenceNames" ∈ (expandQuery ex ern).map Prod.fst ↔ ern = true := by
  constructor
  · intro h
    unfold expandQuery at h
    rw [List.map_append, List.mem_append] at h
    rcases h with h | h
    · exact absurd (mem_keys_listEntry h) (by decide)
    · exact (ern_key_ernQuery ern).1 h
  · intro h
    unfold expandQuery
    rw [List.map_append, List.mem_append]
    exact Or.inr ((ern_key_ernQuery ern).2 h)

theorem expand_key_expandQuery (ex : Option (List Value)) (ern : Bool) :
    "expand" ∈ (expandQuery ex ern).map Prod.fst ↔ truthyList ex = true := by
  cases hx : truthyList ex <;> cases ern <;>
    simp [expandQuery, listEntry, ernQuery, hx]

theorem expand_not_in_falsy {ex : Option (List Value)} (ern : Bool)
    (hx : truthyList ex = false) :
    "expand" ∉ (expandQuery ex ern).map Prod.fst := by
  intro h
  rw [expand_key_expandQuery, hx] at h
  exact Bool.noConfusion h

/-! ## The claims -/

/-- Claim C1: for every list-endpoint method and every logical filter field,
if the field is absent from the call (or supplied as `None`), the
corresponding wire-name key does not appear in the outgoing query-parameter
mapping passed to the request dispatcher. -/
theorem C1_absent_filter_never_serialised (e : ListEndpoint) (params : Params)
    (wire logical : String) (hmem : (wire, logical) ∈ fieldTable e)
    (habs : params logical = none) :
    wire ∉ queryKeys (listCall e params) := by
  cases e <;> exact listGET_absent (by decide) hmem habs

/-- Witness for C1 at a concrete input: `get_organisations` called with no
arguments emits no `parent` key. -/
theorem C1_absent_filter_never_serialised_witness :
    ("parent", "parent") ∈ fieldTable ListEndpoint.organisations ∧
    "parent" ∉ queryKeys (listCall ListEndpoint.organisations (fun _ => none)) :=
  ⟨by decide,
   C1_absent_filter_never_serialised ListEndpoint.organisations (fun _ => none)
     "parent" "parent" (by decide) rfl⟩

/-- A call that sets only `start_date_on_or_before = "2024-01-01"`. -/
def rangeParams : Params :=
  fun k => if k = "start_date_on_or_before" then some (Value.str "2024-01-01") else none

/-- The value a query binds to a key, `none` when the key is absent. -/
def lookupKey (q : List (String × Value)) (k : String) : Option Value :=
  (q.find? fun kv => kv.1 == k).map Prod.snd

/-- Claim C3: range filters map to exactly their conventional wire names.  On
every list endpoint whose table carries `start_date_on_or_before`, calling
with only that field set yields a query binding `startDate.onOrBefore` to the
value, and no other `startDate.*` key appears; and in every table the
`start_date` and `meta` timestamp fields map to `startDate.onOrBefore`,
`startDate.onOrAfter`, `meta.created.before`, `meta.created.after`,
`meta.modified.before`, `meta.modified.after` respectively. -/
theorem C3_range_filter_convention :
    (∀ e : ListEndpoint,
      ("startDate.onOrBefore", "start_date_on_or_before") ∈ fieldTable e →
        lookupKey (listCall e rangeParams).query "startDate.onOrBefore" =
            some (Value.str "2024-01-01") ∧
          ∀ k ∈ queryKeys (listCall e rangeParams),
            k.startsWith "startDate." = true → k = "startDate.onOrBefore") ∧
    (∀ e : ListEndpoint, ∀ kv ∈ fieldTable e,
      (kv.2 = "start_date_on_or_before" → kv.1 = "startDate.onOrBefore") ∧
      (kv.2 = "start_date_on_or_after" → kv.1 = "startDate.onOrAfter") ∧
      (kv.2 = "meta_created_before" → kv.1 = "meta.created.before") ∧
      (kv.2 = "meta_created_after" → kv.1 = "meta.created.after") ∧
      (kv.2 = "meta_modified_before" → kv.1 = "meta.modified.before") ∧
      (kv.2 = "meta_modified_after" → kv.1 = "meta.modified.after")) := by
  constructor
  · intro e h
    cases e <;>
      first
        | exact absurd h (by decide)
        | exact ⟨rfl, fun k hk _ =>
            List.mem_singleton.1 (show k ∈ ["startDate.onOrBefore"] from hk)⟩
  · intro e
    cases e <;> decide

/-- Witness for C3 at a concrete input: on `get_organisations`, the single
range filter serialises to its conventional wire key. -/
theorem C3_range_filter_convention_witness :
    ("startDate.onOrBefore", "start_date_on_or_before") ∈
        fieldTable ListEndpoint.organisations ∧
    lookupKey (listCall ListEndpoint.organisations rangeParams).query
        "startDate.onOrBefore" = some (Value.str "2024-01-01") :=
  ⟨by decide,
   (C3_range_filter_convention.1 ListEndpoint.organisations (by decide)).1⟩

/-- A call that passes one keyword `foo` that no table mentions. -/
def unknownFilterParams : Params :=
  fun k => if k = "foo" then some (Value.str "bar") else none

/-- Counterexample to claim C6: calling `get_organisations` with an unknown
filter keyword does not fail — no `ValidationError` exists anywhere in the
client — it simply produces the ordinary GET request with the unknown field
silently dropped. -/
theorem C6_counterexample_unknown_filter_ignored :
    listCall ListEndpoint.organisations unknownFilterParams =
      { method := "GET", path := "/organisations", query := [], body := none } := rfl

/-- Claim C6 as amended: unknown filter fields never reach the outgoing
request — every emitted query key is a wire name of the resource's own table
— but they are silently ignored rather than rejected; the call still
dispatches normally. -/
theorem C6_amended_unknown_filters_silently_dropped (e : ListEndpoint) (params : Params)
    (k : String) (hk : k ∈ queryKeys (listCall e params)) :
    k ∈ (fieldTable e).map Prod.fst := by
  cases e <;> exact listGET_keys_sub hk

/-- A call that sets only `limit = 2`. -/
def limitParams : Params :=
  fun k => if k = "limit" then some (Value.num 2) else none

/-- Witness for the amended C6 at a concrete input. -/
theorem C6_amended_witness :
    "limit" ∈ (fieldTable ListEndpoint.subscriptions).map Prod.fst :=
  C6_amended_unknown_filters_silently_dropped ListEndpoint.subscriptions limitParams
    "limit" (by decide)

/-- Claim C7 fails on the code: with the documentation's own example base URL
`https://some.server.se/v2.0`, `urljoin` replaces the whole base path, so the
dispatched URL loses the `/v2.0` segment instead of preserving it. -/
theorem C7_base_path_dropped_by_urljoin :
    dispatchUrl "https://some.server.se/v2.0"
        (listCall ListEndpoint.organisations (fun _ => none)) =
      "https://some.server.se/organisations" ∧
    dispatchUrl "https://some.server.se/v2.0"
        (listCall ListEndpoint.organisations (fun _ => none)) ≠
      "https://some.server.se/v2.0/organisations" :=
  ⟨rfl, by decide⟩

/-- Claim C4: on any 4xx/5xx response the call fails with an API error
carrying the status code and — when the body parses as JSON — the decoded
error payload, otherwise the raw response text; a non-JSON body never causes
a secondary decode error that masks the original status. -/
theorem C4_http_error_carries_status_and_payload (r : HttpResponse)
    (h1 : 400 ≤ r.status) (h2 : r.status ≤ 599) :
    handleResponse r = Except.error (RequestError.api r.status (errorPayload r)) ∧
    errorPayload r = (match r.jsonBody with
      | some v => ErrorPayload.json v
      | none => ErrorPayload.text r.text) := by
  refine ⟨?_, rfl⟩
  unfold handleResponse
  rw [if_pos ⟨h1, by omega⟩]

/-- Witness for C4 at concrete inputs: a 404 with a JSON body surfaces the
decoded payload, a 404 with a non-JSON body surfaces the raw text. -/
theorem C4_http_error_witness :
    (400 ≤ 404 ∧
      handleResponse ⟨404, "ignored", some (Value.obj [("error", Value.str "not found")])⟩ =
        Except.error (RequestError.api 404
          (ErrorPayload.json (Value.obj [("error", Value.str "not found")])))) ∧
    handleResponse ⟨404, "plain text error", none⟩ =
      Except.error (RequestError.api 404 (ErrorPayload.text "plain text error")) :=
  ⟨⟨by decide,
    (C4_http_error_carries_status_and_payload
      ⟨404, "ignored", some (Value.obj [("error", Value.str "not found")])⟩
      (by decide) (by decide)).1⟩,
   (C4_http_error_carries_status_and_payload ⟨404, "plain text error", none⟩
      (by decide) (by decide)).1⟩

/-- Counterexample to claim C5: a 204 response and a 200 response whose body
is the JSON literal `null` produce the very same result (Python `None`), so
the "no content" result of a 204 can be confused with a successfully parsed
JSON `null` payload. -/
theorem C5_counterexample_204_equals_json_null :
    handleResponse ⟨204, "", none⟩ = Except.ok Value.null ∧
    handleResponse ⟨200, "null", some Value.null⟩ = Except.ok Value.null ∧
    handleResponse ⟨204, "", none⟩ = handleResponse ⟨200, "null", some Value.null⟩ :=
  ⟨rfl, rfl, rfl⟩

/-- Claim C5 as amended: a 204 response yields Python `None`, which is
distinct from any JSON-object payload (in particular an empty object) of a
2xx response with a body — but it is the same value as a parsed JSON `null`
payload, so those two cases are not distinguishable. -/
theorem C5_amended_no_content_result (r r2 : HttpResponse) (l : List (String × Value))
    (h204 : r.status = 204) (h200 : r2.status = 200)
    (hobj : r2.jsonBody = some (Value.obj l)) :
    handleResponse r = Except.ok Value.null ∧
    handleResponse r2 ≠ handleResponse r := by
  have hr : handleResponse r = Except.ok Value.null := by
    unfold handleResponse
    rw [if_neg (by omega), if_pos h204]
  refine ⟨hr, ?_⟩
  rw [hr]
  unfold handleResponse
  rw [if_neg (by omega), if_neg (by omega), hobj]
  intro h
  exact Value.noConfusion (Except.ok.inj h)

/-- Witness for the amended C5 at a concrete input: a 204 differs from a 200
carrying an empty JSON object. -/
theorem C5_amended_witness :
    handleResponse ⟨204, "", none⟩ = Except.ok Value.null ∧
    handleResponse ⟨200, "empty object", some (Value.obj [])⟩ ≠
      handleResponse ⟨204, "", none⟩ :=
  C5_amended_no_content_result ⟨204, "", none⟩ ⟨200, "empty object", some (Value.obj [])⟩
    [] rfl rfl rfl

/-- Claim C8: `create_subscription` POSTs to `/subscriptions` with exactly the
documented body, wrapping each resource-type string `s` as `(resource, s)` in
order. -/
theorem C8_create_subscription_body :
    (create_subscription "n" "http://x" ["Person", "Activity"] =
      { method := "POST", path := "/subscriptions", query := []
        body := some [("name", Value.str "n"), ("target", Value.str "http://x"),
          ("resourceTypes", Value.arr [Value.obj [("resource", Value.str "Person")],
            Value.obj [("resource", Value.str "Activity")]])] }) ∧
    (∀ (name target : String) (resource_types : List String),
      create_subscription name target resource_types =
        { method := "POST", path := "/subscriptions", query := []
          body := some [("name", Value.str name), ("target", Value.str target),
            ("resourceTypes", Value.arr (resource_types.map fun rt =>
              Value.obj [("resource", Value.str rt)]))] }) :=
  ⟨rfl, fun _ _ _ => rfl⟩

/-- Every query key of a request is `expand` or `expandReferenceNames`. -/
def queryOnlyExpandKeys (r : Request) : Prop :=
  ∀ k ∈ queryKeys r, k = "expand" ∨ k = "expandReferenceNames"

/-- Every JSON-body key of a request is among the given identifier keys. -/
def bodyKeysAmong (r : Request) (allowed : List String) : Prop :=
  ∀ k ∈ bodyKeys r, k ∈ allowed

theorem lookupPOST_wire_split (path : String) (ids ex : Option (List Value)) (ern : Bool) :
    queryOnlyExpandKeys (lookupPOST path ids ex ern) ∧
    bodyKeysAmong (lookupPOST path ids ex ern) ["ids"] := by
  constructor
  · intro k hk
    exact mem_keys_expandQuery (show k ∈ (expandQuery ex ern).map Prod.fst from hk)
  · intro k hk
    have h : k = "ids" :=
      mem_keys_listEntry (show k ∈ (listEntry "ids" ids).map Prod.fst from hk)
    simp [h]

theorem lookupPOSTNoExpand_wire_split (path : String) (ids : Option (List Value))
    (ern : Bool) :
    queryOnlyExpandKeys (lookupPOSTNoExpand path ids ern) ∧
    bodyKeysAmong (lookupPOSTNoExpand path ids ern) ["ids"] := by
  constructor
  · intro k hk
    exact Or.inr (mem_keys_ernQuery (show k ∈ (ernQuery ern).map Prod.fst from hk))
  · intro k hk
    have h : k = "ids" :=
      mem_keys_listEntry (show k ∈ (listEntry "ids" ids).map Prod.fst from hk)
    simp [h]

theorem lookup_organisations_wire_split (ids sucs ocs : Option (List Value)) (ern : Bool) :
    queryOnlyExpandKeys (lookup_organisations ids sucs ocs ern) ∧
    bodyKeysAmong (lookup_organisations ids sucs ocs ern)
      ["ids", "schoolUnitCodes", "organisationCodes"] := by
  constructor
  · intro k hk
    exact Or.inr (mem_keys_ernQuery (show k ∈ (ernQuery ern).map Prod.fst from hk))
  · intro k hk
    have hk' : k ∈ (listEntry "ids" ids ++ listEntry "schoolUnitCodes" sucs ++
        listEntry "organisationCodes" ocs).map Prod.fst := hk
    rw [List.map_append, List.map_append, List.mem_append, List.mem_append] at hk'
    rcases hk' with (h | h) | h
    · simp [mem_keys_listEntry h]
    · simp [mem_keys_listEntry h]
    · simp [mem_keys_listEntry h]

theorem lookup_persons_wire_split (ids cns ex : Option (List Value)) (ern : Bool) :
    queryOnlyExpandKeys (lookup_persons ids cns ex ern) ∧
    bodyKeysAmong (lookup_persons ids cns ex ern) ["ids", "civicNos"] := by
  constructor
  · intro k hk
    exact mem_keys_expandQuery (show k ∈ (expandQuery ex ern).map Prod.fst from hk)
  · intro k hk
    have hk' : k ∈ (listEntry "ids" ids ++ listEntry "civicNos" cns).map Prod.fst := hk
    rw [List.map_append, List.mem_append] at hk'
    rcases hk' with h | h
    · simp [mem_keys_listEntry h]
    · simp [mem_keys_listEntry h]

/-- Claim C2: in every lookup method, identifier lists go only into the JSON
body and never into the query string, while `expand` and
`expandReferenceNames` go only into the query string and never into the body;
in particular `lookup_persons(ids=["p1","p2"], expand=["duties"])` produces
body `ids: [p1, p2]` and query `expand: [duties]`. -/
theorem C2_lookup_body_query_split :
    (∀ ids sucs ocs ern,
      queryOnlyExpandKeys (lookup_organisations ids sucs ocs ern) ∧
      bodyKeysAmong (lookup_organisations ids sucs ocs ern)
        ["ids", "schoolUnitCodes", "organisationCodes"]) ∧
    (∀ ids cns ex ern,
      queryOnlyExpandKeys (lookup_persons ids cns ex ern) ∧
      bodyKeysAmong (lookup_persons ids cns ex ern) ["ids", "civicNos"]) ∧
    (∀ ids ex ern, queryOnlyExpandKeys (lookup_placements ids ex ern) ∧
      bodyKeysAmong (lookup_placements ids ex ern) ["ids"]) ∧
    (∀ ids ex ern, queryOnlyExpandKeys (lookup_duties ids ex ern) ∧
      bodyKeysAmong (lookup_duties ids ex ern) ["ids"]) ∧
    (∀ ids ex ern, queryOnlyExpandKeys (lookup_groups ids ex ern) ∧
      bodyKeysAmong (lookup_groups ids ex ern) ["ids"]) ∧
    (∀ ids ex ern, queryOnlyExpandKeys (lookup_programmes ids ex ern) ∧
      bodyKeysAmong (lookup_programmes ids ex ern) ["ids"]) ∧
    (∀ ids ex ern, queryOnlyExpandKeys (lookup_study_plans ids ex ern) ∧
      bodyKeysAmong (lookup_study_plans ids ex ern) ["ids"]) ∧
    (∀ ids ern, queryOnlyExpandKeys (lookup_syllabuses ids ern) ∧
      bodyKeysAmong (lookup_syllabuses ids ern) ["ids"]) ∧
    (∀ ids ex ern, queryOnlyExpandKeys (lookup_school_unit_offerings ids ex ern) ∧
      bodyKeysAmong (lookup_school_unit_offerings ids ex ern) ["ids"]) ∧
    (∀ ids ex ern, queryOnlyExpandKeys (lookup_activities ids ex ern) ∧
      bodyKeysAmong (lookup_activities ids ex ern) ["ids"]) ∧
    (∀ ids ex ern, queryOnlyExpandKeys (lookup_calendar_events ids ex ern) ∧
      bodyKeysAmong (lookup_calendar_events ids ex ern) ["ids"]) ∧
    (∀ ids ex ern, queryOnlyExpandKeys (lookup_attendances ids ex ern) ∧
      bodyKeysAmong (lookup_attendances ids ex ern) ["ids"]) ∧
    (∀ ids ex ern, queryOnlyExpandKeys (lookup_attendance_events ids ex ern) ∧
      bodyKeysAmong (lookup_attendance_events ids ex ern) ["ids"]) ∧
    (∀ ids ex ern, queryOnlyExpandKeys (lookup_attendance_schedules ids ex ern) ∧
      bodyKeysAmong (lookup_attendance_schedules ids ex ern) ["ids"]) ∧
    (∀ ids ex ern, queryOnlyExpandKeys (lookup_grades ids ex ern) ∧
      bodyKeysAmong (lookup_grades ids ex ern) ["ids"]) ∧
    (∀ ids ex ern, queryOnlyExpandKeys (lookup_aggregated_attendances ids ex ern) ∧
      bodyKeysAmong (lookup_aggregated_attendances ids ex ern) ["ids"]) ∧
    (∀ ids ern, queryOnlyExpandKeys (lookup_resources ids ern) ∧
      bodyKeysAmong (lookup_resources ids ern) ["ids"]) ∧
    (∀ ids ern, queryOnlyExpandKeys (lookup_rooms ids ern) ∧
      bodyKeysAmong (lookup_rooms ids ern) ["ids"]) ∧
    lookup_persons (some [Value.str "p1", Value.str "p2"]) none
        (some [Value.str "duties"]) false =
      { method := "POST", path := "/persons/lookup"
        query := [("expand", Value.arr [Value.str "duties"])]
        body := some [("ids", Value.arr [Value.str "p1", Value.str "p2"])] } :=
  ⟨lookup_organisations_wire_split,
   lookup_persons_wire_split,
   fun ids ex ern => lookupPOST_wire_split _ ids ex ern,
   fun ids ex ern => lookupPOST_wire_split _ ids ex ern,
   fun ids ex ern => lookupPOST_wire_split _ ids ex ern,
   fun ids ex ern => lookupPOST_wire_split _ ids ex ern,
   fun ids ex ern => lookupPOST_wire_split _ ids ex ern,
   fun ids ern => lookupPOSTNoExpand_wire_split _ ids ern,
   fun ids ex ern => lookupPOST_wire_split _ ids ex ern,
   fun ids ex ern => lookupPOST_wire_split _ ids ex ern,
   fun ids ex ern => lookupPOST_wire_split _ ids ex ern,
   fun ids ex ern => lookupPOST_wire_split _ ids ex ern,
   fun ids ex ern => lookupPOST_wire_split _ ids ex ern,
   fun ids ex ern => lookupPOST_wire_split _ ids ex ern,
   fun ids ex ern => lookupPOST_wire_split _ ids ex ern,
   fun ids ex ern => lookupPOST_wire_split _ ids ex ern,
   fun ids ern => lookupPOSTNoExpand_wire_split _ ids ern,
   fun ids ern => lookupPOSTNoExpand_wire_split _ ids ern,
   rfl⟩

/-- Claim C9: in every lookup method, an identifier list supplied as the
empty list is treated identically to an omitted one — the built request is
the same, and the corresponding body key is absent, so an empty list is
indistinguishable from absent at the wire level. -/
theorem C9_empty_identifier_list_like_absent :
    (∀ sucs ocs ern,
      lookup_organisations (some []) sucs ocs ern = lookup_organisations none sucs ocs ern) ∧
    (∀ ids ocs ern,
      lookup_organisations ids (some []) ocs ern = lookup_organisations ids none ocs ern) ∧
    (∀ ids sucs ern,
      lookup_organisations ids sucs (some []) ern = lookup_organisations ids sucs none ern) ∧
    (∀ cns ex ern, lookup_persons (some []) cns ex ern = lookup_persons none cns ex ern) ∧
    (∀ ids ex ern, lookup_persons ids (some []) ex ern = lookup_persons ids none ex ern) ∧
    (∀ ex ern, lookup_placements (some []) ex ern = lookup_placements none ex ern) ∧
    (∀ ex ern, lookup_duties (some []) ex ern = lookup_duties none ex ern) ∧
    (∀ ex ern, lookup_groups (some []) ex ern = lookup_groups none ex ern) ∧
    (∀ ex ern, lookup_programmes (some []) ex ern = lookup_programmes none ex ern) ∧
    (∀ ex ern, lookup_study_plans (some []) ex ern = lookup_study_plans none ex ern) ∧
    (∀ ern, lookup_syllabuses (some []) ern = lookup_syllabuses none ern) ∧
    (∀ ex ern,
      lookup_school_unit_offerings (some []) ex ern = lookup_school_unit_offerings none ex ern) ∧
    (∀ ex ern, lookup_activities (some []) ex ern = lookup_activities none ex ern) ∧
    (∀ ex ern, lookup_calendar_events (some []) ex ern = lookup_calendar_events none ex ern) ∧
    (∀ ex ern, lookup_attendances (some []) ex ern = lookup_attendances none ex ern) ∧
    (∀ ex ern,
      lookup_attendance_events (some []) ex ern = lookup_attendance_events none ex ern) ∧
    (∀ ex ern,
      lookup_attendance_schedules (some []) ex ern = lookup_attendance_schedules none ex ern) ∧
    (∀ ex ern, lookup_grades (some []) ex ern = lookup_grades none ex ern) ∧
    (∀ ex ern,
      lookup_aggregated_attendances (some []) ex ern = lookup_aggregated_attendances none ex ern) ∧
    (∀ ern, lookup_resources (some []) ern = lookup_resources none ern) ∧
    (∀ ern, lookup_rooms (some []) ern = lookup_rooms none ern) ∧
    (∀ ex ern, bodyKeys (lookup_placements (some []) ex ern) = []) ∧
    (∀ ex ern, bodyKeys (lookup_persons none (some []) ex ern) = []) :=
  ⟨fun _ _ _ => rfl, fun _ _ _ => rfl, fun _ _ _ => rfl, fun _ _ _ => rfl,
   fun _ _ _ => rfl, fun _ _ => rfl, fun _ _ => rfl, fun _ _ => rfl,
   fun _ _ => rfl, fun _ _ => rfl, fun _ => rfl, fun _ _ => rfl,
   fun _ _ => rfl, fun _ _ => rfl, fun _ _ => rfl, fun _ _ => rfl,
   fun _ _ => rfl, fun _ _ => rfl, fun _ _ => rfl, fun _ => rfl,
   fun _ => rfl, fun _ _ => rfl, fun _ _ => rfl⟩

/-- Claim C10: in every lookup and get-by-id method, the query carries an
`expandReferenceNames` key exactly when `expand_reference_names` is true (so
the `False` default, like omitting the argument, emits nothing), and `expand`
supplied as `None` or as the empty list emits no `expand` key. -/
theorem C10_expand_flags_omitted_when_falsy :
    (∀ ids sucs ocs ern, "expandReferenceNames" ∈
      queryKeys (lookup_organisations ids sucs ocs ern) ↔ ern = true) ∧
    (∀ ids cns ex ern, "expandReferenceNames" ∈
      queryKeys (lookup_persons ids cns ex ern) ↔ ern = true) ∧
    (∀ ids ex ern, "expandReferenceNames" ∈
      queryKeys (lookup_placements ids ex ern) ↔ ern = true) ∧
    (∀ ids ex ern, "expandReferenceNames" ∈
      queryKeys (lookup_duties ids ex ern) ↔ ern = true) ∧
    (∀ ids ex ern, "expandReferenceNames" ∈
      queryKeys (lookup_groups ids ex ern) ↔ ern = true) ∧
    (∀ ids ex ern, "expandReferenceNames" ∈
      queryKeys (lookup_programmes ids ex ern) ↔ ern = true) ∧
    (∀ ids ex ern, "expandReferenceNames" ∈
      queryKeys (lookup_study_plans ids ex ern) ↔ ern = true) ∧
    (∀ ids ern, "expandReferenceNames" ∈
      queryKeys (lookup_syllabuses ids ern) ↔ ern = true) ∧
    (∀ ids ex ern, "expandReferenceNames" ∈
      queryKeys (lookup_school_unit_offerings ids ex ern) ↔ ern = true) ∧
    (∀ ids ex ern, "expandReferenceNames" ∈
      queryKeys (lookup_activities ids ex ern) ↔ ern = true) ∧
    (∀ ids ex ern, "expandReferenceNames" ∈
      queryKeys (lookup_calendar_events ids ex ern) ↔ ern = true) ∧
    (∀ ids ex ern, "expandReferenceNames" ∈
      queryKeys (lookup_attendances ids ex ern) ↔ ern = true) ∧
    (∀ ids ex ern, "expandReferenceNames" ∈
      queryKeys (lookup_attendance_events ids ex ern) ↔ ern = true) ∧
    (∀ ids ex ern, "expandReferenceNames" ∈
      queryKeys (lookup_attendance_schedules ids ex ern) ↔ ern = true) ∧
    (∀ ids ex ern, "expandReferenceNames" ∈
      queryKeys (lookup_grades ids ex ern) ↔ ern = true) ∧
    (∀ ids ex ern, "expandReferenceNames" ∈
      queryKeys (lookup_aggregated_attendances ids ex ern) ↔ ern = true) ∧
    (∀ ids ern, "expandReferenceNames" ∈
      queryKeys (lookup_resources ids ern) ↔ ern = true) ∧
    (∀ ids ern, "expandReferenceNames" ∈
      queryKeys (lookup_rooms ids ern) ↔ ern = true) ∧
    (∀ id ern, "expandReferenceNames" ∈
      queryKeys (get_organisation_by_id id ern) ↔ ern = true) ∧
    (∀ id ex ern, "expandReferenceNames" ∈
      queryKeys (get_person_by_id id ex ern) ↔ ern = true) ∧
    (∀ id ex ern, "expandReferenceNames" ∈
      queryKeys (get_placement_by_id id ex ern) ↔ ern = true) ∧
    (∀ id ex ern, "expandReferenceNames" ∈
      queryKeys (get_duty_by_id id ex ern) ↔ ern = true) ∧
    (∀ id ex ern, "expandReferenceNames" ∈
      queryKeys (get_group_by_id id ex ern) ↔ ern = true) ∧
    (∀ id ex ern, "expandReferenceNames" ∈
      queryKeys (get_programme_by_id id ex ern) ↔ ern = true) ∧
    (∀ id ex ern, "expandReferenceNames" ∈
      queryKeys (get_study_plan_by_id id ex ern) ↔ ern = true) ∧
    (∀ id ern, "expandReferenceNames" ∈
      queryKeys (get_syllabus_by_id id ern) ↔ ern = true) ∧
    (∀ id ex ern, "expandReferenceNames" ∈
      queryKeys (get_school_unit_offering_by_id id ex ern) ↔ ern = true) ∧
    (∀ id ex ern, "expandReferenceNames" ∈
      queryKeys (get_activity_by_id id ex ern) ↔ ern = true) ∧
    (∀ id ex ern, "expandReferenceNames" ∈
      queryKeys (get_calendar_event_by_id id ex ern) ↔ ern = true) ∧
    (∀ id ex ern, "expandReferenceNames" ∈
      queryKeys (get_attendance_by_id id ex ern) ↔ ern = true) ∧
    (∀ id ex ern, "expandReferenceNames" ∈
      queryKeys (get_attendance_event_by_id id ex ern) ↔ ern = true) ∧
    (∀ id ex ern, "expandReferenceNames" ∈
      queryKeys (get_attendance_schedule_by_id id ex ern) ↔ ern = true) ∧
    (∀ id ex ern, "expandReferenceNames" ∈
      queryKeys (get_grade_by_id id ex ern) ↔ ern = true) ∧
    (∀ id ex ern, "expandReferenceNames" ∈
      queryKeys (get_aggregated_attendance_by_id id ex ern) ↔ ern = true) ∧
    (∀ id ern, "expandReferenceNames" ∈
      queryKeys (get_resource_by_id id ern) ↔ ern = true) ∧
    (∀ id ern, "expandReferenceNames" ∈
      queryKeys (get_room_by_id id ern) ↔ ern = true) ∧
    (∀ ids cns ern, "expand" ∉ queryKeys (lookup_persons ids cns none ern) ∧
      "expand" ∉ queryKeys (lookup_persons ids cns (some []) ern)) ∧
    (∀ ids ern, "expand" ∉ queryKeys (lookup_placements ids none ern) ∧
      "expand" ∉ queryKeys (lookup_placements ids (some []) ern)) ∧
    (∀ ids ern, "expand" ∉ queryKeys (lookup_duties ids none ern) ∧
      "expand" ∉ queryKeys (lookup_duties ids (some []) ern)) ∧
    (∀ ids ern, "expand" ∉ queryKeys (lookup_groups ids none ern) ∧
      "expand" ∉ queryKeys (lookup_groups ids (some []) ern)) ∧
    (∀ ids ern, "expand" ∉ queryKeys (lookup_programmes ids none ern) ∧
      "expand" ∉ queryKeys (lookup_programmes ids (some []) ern)) ∧
    (∀ ids ern, "expand" ∉ queryKeys (lookup_study_plans ids none ern) ∧
      "expand" ∉ queryKeys (lookup_study_plans ids (some []) ern)) ∧
    (∀ ids ern, "expand" ∉ queryKeys (lookup_school_unit_offerings ids none ern) ∧
      "expand" ∉ queryKeys (lookup_school_unit_offerings ids (some []) ern)) ∧
    (∀ ids ern, "expand" ∉ queryKeys (lookup_activities ids none ern) ∧
      "expand" ∉ queryKeys (lookup_activities ids (some []) ern)) ∧
    (∀ ids ern, "expand" ∉ queryKeys (lookup_calendar_events ids none ern) ∧
      "expand" ∉ queryKeys (lookup_calendar_events ids (some []) ern)) ∧
    (∀ ids ern, "expand" ∉ queryKeys (lookup_attendances ids none ern) ∧
      "expand" ∉ queryKeys (lookup_attendances ids (some []) ern)) ∧
    (∀ ids ern, "expand" ∉ queryKeys (lookup_attendance_events ids none ern) ∧
      "expand" ∉ queryKeys (lookup_attendance_events ids (some []) ern)) ∧
    (∀ ids ern, "expand" ∉ queryKeys (lookup_attendance_schedules ids none ern) ∧
      "expand" ∉ queryKeys (lookup_attendance_schedules ids (some []) ern)) ∧
    (∀ ids ern, "expand" ∉ queryKeys (lookup_grades ids none ern) ∧
      "expand" ∉ queryKeys (lookup_grades ids (some []) ern)) ∧
    (∀ ids ern, "expand" ∉ queryKeys (lookup_aggregated_attendances ids none ern) ∧
      "expand" ∉ queryKeys (lookup_aggregated_attendances ids (some []) ern)) ∧
    (∀ id ern, "expand" ∉ queryKeys (get_person_by_id id none ern) ∧
      "expand" ∉ queryKeys (get_person_by_id id (some []) ern)) ∧
    (∀ id ern, "expand" ∉ queryKeys (get_placement_by_id id none ern) ∧
      "expand" ∉ queryKeys (get_placement_by_id id (some []) ern)) ∧
    (∀ id ern, "expand" ∉ queryKeys (get_duty_by_id id none ern) ∧
      "expand" ∉ queryKeys (get_duty_by_id id (some []) ern)) ∧
    (∀ id ern, "expand" ∉ queryKeys (get_group_by_id id none ern) ∧
      "expand" ∉ queryKeys (get_group_by_id id (some []) ern)) ∧
    (∀ id ern, "expand" ∉ queryKeys (get_programme_by_id id none ern) ∧
      "expand" ∉ queryKeys (get_programme_by_id id (some []) ern)) ∧
    (∀ id ern, "expand" ∉ queryKeys (get_study_plan_by_id id none ern) ∧
      "expand" ∉ queryKeys (get_study_plan_by_id id (some []) ern)) ∧
    (∀ id ern, "expand" ∉ queryKeys (get_school_unit_offering_by_id id none ern) ∧
      "expand" ∉ queryKeys (get_school_unit_offering_by_id id (some []) ern)) ∧
    (∀ id ern, "expand" ∉ queryKeys (get_activity_by_id id none ern) ∧
      "expand" ∉ queryKeys (get_activity_by_id id (some []) ern)) ∧
    (∀ id ern, "expand" ∉ queryKeys (get_calendar_event_by_id id none ern) ∧
      "expand" ∉ queryKeys (get_calendar_event_by_id id (some []) ern)) ∧
    (∀ id ern, "expand" ∉ queryKeys (get_attendance_by_id id none ern) ∧
      "expand" ∉ queryKeys (get_attendance_by_id id (some []) ern)) ∧
    (∀ id ern, "expand" ∉ queryKeys (get_attendance_event_by_id id none ern) ∧
      "expand" ∉ queryKeys (get_attendance_event_by_id id (some []) ern)) ∧
    (∀ id ern, "expand" ∉ queryKeys (get_attendance_schedule_by_id id none ern) ∧
      "expand" ∉ queryKeys (get_attendance_schedule_by_id id (some []) ern)) ∧
    (∀ id ern, "expand" ∉ queryKeys (get_grade_by_id id none ern) ∧
      "expand" ∉ queryKeys (get_grade_by_id id (some []) ern)) ∧
    (∀ id ern, "expand" ∉ queryKeys (get_aggregated_attendance_by_id id none ern) ∧
      "expand" ∉ queryKeys (get_aggregated_attendance_by_id id (some []) ern)) :=
  ⟨fun _ _ _ ern => ern_key_ernQuery ern,
   fun _ _ ex ern => ern_key_expandQuery ex ern,
   fun _ ex ern => ern_key_expandQuery ex ern,
   fun _ ex ern => ern_key_expandQuery ex ern,
   fun _ ex ern => ern_key_expandQuery ex ern,
   fun _ ex ern => ern_key_expandQuery ex ern,
   fun _ ex ern => ern_key_expandQuery ex ern,
   fun _ ern => ern_key_ernQuery ern,
   fun _ ex ern => ern_key_expandQuery ex ern,
   fun _ ex ern => ern_key_expandQuery ex ern,
   fun _ ex ern => ern_key_expandQuery ex ern,
   fun _ ex ern => ern_key_expandQuery ex ern,
   fun _ ex ern => ern_key_expandQuery ex ern,
   fun _ ex ern => ern_key_expandQuery ex ern,
   fun _ ex ern => ern_key_expandQuery ex ern,
   fun _ ex ern => ern_key_expandQuery ex ern,
   fun _ ern => ern_key_ernQuery ern,
   fun _ ern => ern_key_ernQuery ern,
   fun _ ern => ern_key_ernQuery ern,
   fun _ ex ern => ern_key_expandQuery ex ern,
   fun _ ex ern => ern_key_expandQuery ex ern,
   fun _ ex ern => ern_key_expandQuery ex ern,
   fun _ ex ern => ern_key_expandQuery ex ern,
   fun _ ex ern => ern_key_expandQuery ex ern,
   fun _ ex ern => ern_key_expandQuery ex ern,
   fun _ ern => ern_key_ernQuery ern,
   fun _ ex ern => ern_key_expandQuery ex ern,
   fun _ ex ern => ern_key_expandQuery ex ern,
   fun _ ex ern => ern_key_expandQuery ex ern,
   fun _ ex ern => ern_key_expandQuery ex ern,
   fun _ ex ern => ern_key_expandQuery ex ern,
   fun _ ex ern => ern_key_expandQuery ex ern,
   fun _ ex ern => ern_key_expandQuery ex ern,
   fun _ ex ern => ern_key_expandQuery ex ern,
   fun _ ern => ern_key_ernQuery ern,
   fun _ ern => ern_key_ernQuery ern,
   fun _ _ ern => ⟨expand_not_in_falsy ern rfl, expand_not_in_falsy ern rfl⟩,
   fun _ ern => ⟨expand_not_in_falsy ern rfl, expand_not_in_falsy ern rfl⟩,
   fun _ ern => ⟨expand_not_in_falsy ern rfl, expand_not_in_falsy ern rfl⟩,
   fun _ ern => ⟨expand_not_in_falsy ern rfl, expand_not_in_falsy ern rfl⟩,
   fun _ ern => ⟨expand_not_in_falsy ern rfl, expand_not_in_falsy ern rfl⟩,
   fun _ ern => ⟨expand_not_in_falsy ern rfl, expand_not_in_falsy ern rfl⟩,
   fun _ ern => ⟨expand_not_in_falsy ern rfl, expand_not_in_falsy ern rfl⟩,
   fun _ ern => ⟨expand_not_in_falsy ern rfl, expand_not_in_falsy ern rfl⟩,
   fun _ ern => ⟨expand_not_in_falsy ern rfl, expand_not_in_falsy ern rfl⟩,
   fun _ ern => ⟨expand_not_in_falsy ern rfl, expand_not_in_falsy ern rfl⟩,
   fun _ ern => ⟨expand_not_in_falsy ern rfl, expand_not_in_falsy ern rfl⟩,
   fun _ ern => ⟨expand_not_in_falsy ern rfl, expand_not_in_falsy ern rfl⟩,
   fun _ ern => ⟨expand_not_in_falsy ern rfl, expand_not_in_falsy ern rfl⟩,
   fun _ ern => ⟨expand_not_in_falsy ern rfl, expand_not_in_falsy ern rfl⟩,
   fun _ ern => ⟨expand_not_in_falsy ern rfl, expand_not_in_falsy ern rfl⟩,
   fun _ ern => ⟨expand_not_in_falsy ern rfl, expand_not_in_falsy ern rfl⟩,
   fun _ ern => ⟨expand_not_in_falsy ern rfl, expand_not_in_falsy ern rfl⟩,
   fun _ ern => ⟨expand_not_in_falsy ern rfl, expand_not_in_falsy ern rfl⟩,
   fun _ ern => ⟨expand_not_in_falsy ern rfl, expand_not_in_falsy ern rfl⟩,
   fun _ ern => ⟨expand_not_in_falsy ern rfl, expand_not_in_falsy ern rfl⟩,
   fun _ ern => ⟨expand_not_in_falsy ern rfl, expand_not_in_falsy ern rfl⟩,
   fun _ ern => ⟨expand_not_in_falsy ern rfl, expand_not_in_falsy ern rfl⟩,
   fun _ ern => ⟨expand_not_in_falsy ern rfl, expand_not_in_falsy ern rfl⟩,
   fun _ ern => ⟨expand_not_in_falsy ern rfl, expand_not_in_falsy ern rfl⟩,
   fun _ ern => ⟨expand_not_in_falsy ern rfl, expand_not_in_falsy ern rfl⟩,
   fun _ ern => ⟨expand_not_in_falsy ern rfl, expand_not_in_falsy ern rfl⟩,
   fun _ ern => ⟨expand_not_in_falsy ern rfl, expand_not_in_falsy ern rfl⟩,
   fun _ ern => ⟨expand_not_in_falsy ern rfl, expand_not_in_falsy ern rfl⟩⟩

end SS12000
